import Mathlib

/-!
Shallow embedding of the PicoFFT unified ADC sampling core
(`adc_sampling.c` / `adc_sampling.h`), its window/calibration math
(`config_settings.h`) and the display-side clamping
(`fft_streaming_display.c`, `lcd_2in8.c`).

Machine integers are modelled as `Nat`; float arithmetic is idealised as
exact arithmetic over `ℚ` (for the structural/bookkeeping parts) and `ℝ`
(for the logarithmic dB conversion).  The two physical sample buffers
`buffer_ping` / `buffer_pong` are identified by a `Bool`
(`false` = ping, `true` = pong), matching the `buffer_selector` flag in
the C struct; the C pointers `current_buffer` / `ready_buffer` become
that identifier resp. an optional identifier (`NULL` = `none`).
-/

/-- Enum `adc_sampling_mode_t` (adc_sampling.h lines 32-35). -/
inductive AdcSamplingMode where
  | manual
  | dma
deriving DecidableEq

/-- Enum `adc_sampling_status_t` (adc_sampling.h lines 38-43). -/
inductive AdcSamplingStatus where
  | idle
  | sampling
  | dataReady
  | error
deriving DecidableEq

/-- Constant `ADC_SAMPLING_FFT_SIZE` (adc_sampling.h line 27). -/
def ADC_SAMPLING_FFT_SIZE : ℕ := 1024

/-- Identifier of `buffer_ping` ("Buffer A"). -/
def pingId : Bool := false

/-- Identifier of `buffer_pong` ("Buffer B"). -/
def pongId : Bool := true

/-- The observable fields of `unified_fft_analyzer_t` (adc_sampling.h lines
46-85) that the acquisition state machine reads or writes.  Buffer pointers
are physical-buffer identifiers; `dmaTarget` records the destination the DMA
channel is currently configured to write into (`none` = channel detached). -/
structure UnifiedFFTAnalyzer where
  mode : AdcSamplingMode
  status : AdcSamplingStatus
  bufferPing : List ℕ
  bufferPong : List ℕ
  currentBuffer : Bool
  readyBuffer : Option Bool
  bufferSelector : Bool
  dataReady : Bool
  samplingActive : Bool
  sampleCount : ℕ
  bufferOverruns : ℕ
  fftReady : Bool
  actualSampleRate : ℚ
  dmaTarget : Option Bool
deriving DecidableEq

/-- Contents of the physical buffer identified by `b`. -/
def bufferData (s : UnifiedFFTAnalyzer) (b : Bool) : List ℕ :=
  if b = pongId then s.bufferPong else s.bufferPing

/-- The ADC write (manual `adc_read()` loop, or the DMA engine) storing a
frame of raw samples into the buffer the `current_buffer` pointer addresses. -/
def writeCurrent (s : UnifiedFFTAnalyzer) (data : List ℕ) : UnifiedFFTAnalyzer :=
  if s.currentBuffer = pongId then { s with bufferPong := data }
  else { s with bufferPing := data }

/-- Function `adc_sampling_init` (adc_sampling.c lines 75-125): `memset` to zero, then
set the mode, `ADC_STATUS_IDLE`, `current_buffer = buffer_ping`,
`ready_buffer = NULL`, `buffer_selector = false`. -/
def adc_sampling_init (mode : AdcSamplingMode) : UnifiedFFTAnalyzer :=
  { mode := mode
    status := .idle
    bufferPing := List.replicate ADC_SAMPLING_FFT_SIZE 0
    bufferPong := List.replicate ADC_SAMPLING_FFT_SIZE 0
    currentBuffer := pingId
    readyBuffer := none
    bufferSelector := false
    dataReady := false
    samplingActive := false
    sampleCount := 0
    bufferOverruns := 0
    fftReady := false
    actualSampleRate := 0
    dmaTarget := none }

/-- Function `adc_sampling_reset_counters` (adc_sampling.c lines 273-277). -/
def adc_sampling_reset_counters (s : UnifiedFFTAnalyzer) : UnifiedFFTAnalyzer :=
  { s with sampleCount := 0, bufferOverruns := 0, actualSampleRate := 0 }

/-- Function `_adc_dma_start` (adc_sampling.c lines 407-425): configures the DMA
channel with the current buffer as destination and starts it. -/
def _adc_dma_start (s : UnifiedFFTAnalyzer) : UnifiedFFTAnalyzer :=
  { s with dmaTarget := some s.currentBuffer }

/-- Function `_adc_dma_stop` (adc_sampling.c lines 430-436): `adc_run(false)` and
`dma_channel_abort` detach the transfer. -/
def _adc_dma_stop (s : UnifiedFFTAnalyzer) : UnifiedFFTAnalyzer :=
  { s with dmaTarget := none }

/-- Function `adc_sampling_start` (adc_sampling.c lines 130-154): no-op when already
`ADC_STATUS_SAMPLING`; otherwise resets counters, starts the DMA transfer in
DMA mode, and sets `ADC_STATUS_SAMPLING` / `sampling_active`. -/
def adc_sampling_start (s : UnifiedFFTAnalyzer) : UnifiedFFTAnalyzer :=
  if s.status = .sampling then s
  else
    let s1 := adc_sampling_reset_counters s
    let s2 := if s1.mode = .dma then _adc_dma_start s1 else s1
    { s2 with status := .sampling, samplingActive := true }

/-- Function `adc_sampling_stop` (adc_sampling.c lines 159-190): no-op when already
`ADC_STATUS_IDLE`; otherwise stops the DMA transfer in DMA mode, sets
`ADC_STATUS_IDLE`, clears `sampling_active` and `data_ready`, and derives the
final measured rate from the elapsed time `t` (microseconds). -/
def adc_sampling_stop (s : UnifiedFFTAnalyzer) (t : ℚ) : UnifiedFFTAnalyzer :=
  if s.status = .idle then s
  else
    let s1 := if s.mode = .dma then _adc_dma_stop s else s
    let s2 := { s1 with status := .idle, samplingActive := false, dataReady := false }
    if t > 0 then
      { s2 with actualSampleRate := (s2.sampleCount : ℚ) * 1000000 / t }
    else s2

/-- Function `_adc_swap_buffers` (adc_sampling.c lines 539-547): the current buffer
becomes the ready buffer, the selector flips, and the current pointer follows
the selector (`pong` when `true`, `ping` when `false`). -/
def _adc_swap_buffers (s : UnifiedFFTAnalyzer) : UnifiedFFTAnalyzer :=
  let s1 := { s with readyBuffer := some s.currentBuffer }
  let s2 := { s1 with bufferSelector := !s1.bufferSelector }
  { s2 with currentBuffer := if s2.bufferSelector then pongId else pingId }

/-- Function `_adc_manual_sample_buffer` (adc_sampling.c lines 496-530): the blocking
`adc_read()` loop fills the whole current buffer with `data`
(`ADC_SAMPLING_FFT_SIZE` precisely-timed reads), adds a full frame to
`sample_count`, folds the measured rate (elapsed time `t` in microseconds)
into an exponential moving average, swaps buffers, and sets `data_ready`. -/
def _adc_manual_sample_buffer (s : UnifiedFFTAnalyzer) (data : List ℕ) (t : ℚ) :
    UnifiedFFTAnalyzer :=
  let s1 := writeCurrent s data
  let s2 := { s1 with sampleCount := s1.sampleCount + ADC_SAMPLING_FFT_SIZE }
  let s3 :=
    if t > 0 then
      let currentRate := (ADC_SAMPLING_FFT_SIZE : ℚ) * 1000000 / t
      { s2 with actualSampleRate :=
          if s2.actualSampleRate = 0 then currentRate
          else (9 / 10) * s2.actualSampleRate + (1 / 10) * currentRate }
    else s2
  let s4 := _adc_swap_buffers s3
  { s4 with dataReady := true }

/-- The prefix of `_adc_dma_interrupt_handler` (adc_sampling.c lines 441-468)
that runs before `data_ready = true` is assigned: add a full frame to
`sample_count`, count an overrun if `data_ready` was still set, swap buffers,
and re-arm the DMA channel onto the new current buffer
(`dma_channel_configure(..., g_unified_analyzer.current_buffer, ..., true)`). -/
def _adc_dma_handler_armed (s : UnifiedFFTAnalyzer) : UnifiedFFTAnalyzer :=
  let s1 := { s with sampleCount := s.sampleCount + ADC_SAMPLING_FFT_SIZE }
  let s2 := if s1.dataReady then { s1 with bufferOverruns := s1.bufferOverruns + 1 } else s1
  let s3 := _adc_swap_buffers s2
  { s3 with dmaTarget := some s3.currentBuffer }

/-- Function `_adc_dma_interrupt_handler` (adc_sampling.c lines 441-474): the armed
prefix above, then — as the final action — `data_ready = true`. -/
def _adc_dma_interrupt_handler (s : UnifiedFFTAnalyzer) : UnifiedFFTAnalyzer :=
  { _adc_dma_handler_armed s with dataReady := true }

/-- Function `adc_sampling_is_ready` (adc_sampling.c lines 195-204): in manual mode
with sampling active and no data pending, the call itself runs the blocking
sample loop; it returns the (possibly updated) `data_ready` flag.  `data` and
`t` are the samples read and the elapsed time of that loop, unused in DMA
mode. -/
def adc_sampling_is_ready (s : UnifiedFFTAnalyzer) (data : List ℕ) (t : ℚ) :
    UnifiedFFTAnalyzer × Bool :=
  if s.mode = .manual ∧ s.samplingActive = true ∧ s.dataReady = false then
    let s1 := _adc_manual_sample_buffer s data t
    (s1, s1.dataReady)
  else (s, s.dataReady)

/-- Function `adc_sampling_get_buffer` (adc_sampling.c lines 209-215): `NULL` unless
`data_ready`, otherwise the `ready_buffer` pointer. -/
def adc_sampling_get_buffer (s : UnifiedFFTAnalyzer) : Option Bool :=
  if s.dataReady = true then s.readyBuffer else none

/-- Function `adc_sampling_complete_processing` (adc_sampling.c lines 220-229): when
data is ready, clear `data_ready`, `fft_ready` and the `ready_buffer`
pointer; otherwise do nothing. -/
def adc_sampling_complete_processing (s : UnifiedFFTAnalyzer) : UnifiedFFTAnalyzer :=
  if s.dataReady = true then
    { s with dataReady := false, fftReady := false, readyBuffer := none }
  else s

/-- State effect of `adc_sampling_process_fft` (adc_sampling.c lines 286-329)
on the analyzer bookkeeping: fails when no buffer is ready, otherwise sets
`fft_ready`.  (The per-bin magnitude math is modelled separately below.) -/
def adc_sampling_process_fft (s : UnifiedFFTAnalyzer) : UnifiedFFTAnalyzer × Bool :=
  if adc_sampling_get_buffer s = none then (s, false)
  else ({ s with fftReady := true }, true)

/-- Events driving the acquisition state machine.  `dmaComplete data` is the
completion interrupt of a DMA transfer that has filled the current buffer
with `data`; it can only occur in DMA mode (the handler is installed by
`_adc_dma_init`).  `isReady`/`stop` carry the measured elapsed times. -/
inductive AdcEvent where
  | start
  | stop (t : ℚ)
  | isReady (data : List ℕ) (t : ℚ)
  | dmaComplete (data : List ℕ)
  | processFft
  | release
  | resetCounters

/-- One step of the acquisition state machine. -/
def adcStep (s : UnifiedFFTAnalyzer) : AdcEvent → UnifiedFFTAnalyzer
  | .start => adc_sampling_start s
  | .stop t => adc_sampling_stop s t
  | .isReady data t => (adc_sampling_is_ready s data t).1
  | .dmaComplete data =>
      if s.mode = .dma then _adc_dma_interrupt_handler (writeCurrent s data) else s
  | .processFft => (adc_sampling_process_fft s).1
  | .release => adc_sampling_complete_processing s
  | .resetCounters => adc_sampling_reset_counters s

/-- States reachable from initialization through any event sequence. -/
inductive Reachable : UnifiedFFTAnalyzer → Prop
  | init (mode : AdcSamplingMode) : Reachable (adc_sampling_init mode)
  | step {s : UnifiedFFTAnalyzer} (e : AdcEvent) : Reachable s → Reachable (adcStep s e)

/-- The seven selectable window shapes (config_settings.h line 50). -/
inductive WindowShape where
  | rectangle
  | hamming
  | hann
  | blackman
  | blackmanHarris
  | kaiserBessel
  | flatTop
deriving DecidableEq

/-- Constants `WINDOW_COHERENT_GAIN_*` (config_settings.h lines 54-60): the fixed
theoretical coherent-gain constant of each window shape. -/
def windowCoherentGain : WindowShape → ℚ
  | .rectangle => 1
  | .hamming => 0.54
  | .hann => 0.5
  | .blackman => 0.42
  | .blackmanHarris => 0.35875
  | .kaiserBessel => 0.4
  | .flatTop => 0.2156

/-- Constants `WINDOW_AMPLITUDE_CORRECTION_*` (config_settings.h lines 63-69): each
correction constant is written in the source as `1.0f / gain`. -/
def windowAmplitudeCorrection : WindowShape → ℚ
  | .rectangle => 1 / 1
  | .hamming => 1 / 0.54
  | .hann => 1 / 0.5
  | .blackman => 1 / 0.42
  | .blackmanHarris => 1 / 0.35875
  | .kaiserBessel => 1 / 0.4
  | .flatTop => 1 / 0.2156

/-- Per-bin normalization of `adc_sampling_process_fft` (adc_sampling.c lines
301-309): `magnitude /= ADC_SAMPLING_FFT_SIZE;` is applied to every bin `i`
of the consumed half-spectrum, with no special case. -/
def normalize_unified (_i : ℕ) (mag : ℚ) : ℚ :=
  mag / (ADC_SAMPLING_FFT_SIZE : ℚ)

/-- Per-bin normalization of `fft_realtime_analysis` (lcd_2in8.c lines
425-431): `magnitude /= FFT_SIZE` for the DC bin, `magnitude /= FFT_SIZE/2`
for every other bin. -/
def normalize_realtime (i : ℕ) (mag : ℚ) : ℚ :=
  if i = 0 then mag / (ADC_SAMPLING_FFT_SIZE : ℚ)
  else mag / ((ADC_SAMPLING_FFT_SIZE : ℚ) / 2)

/-- Modelled from the spec: "Magnitude ... normalized by N for the DC bin and
N/2 for all other bins" — the normalization C4 claims for the
transform-and-calibrate step. -/
def claimedNormalize (i : ℕ) (mag : ℚ) : ℚ :=
  if i = 0 then mag / (ADC_SAMPLING_FFT_SIZE : ℚ)
  else mag / ((ADC_SAMPLING_FFT_SIZE : ℚ) / 2)

/-- Constant `DB_REFERENCE_VOLTAGE_0DBM` (config_settings.h line 31): 0 dBm reference
voltage, the documented closed form `sqrt(0.001 W × 75 Ω) ≈ 0.274 Vrms`. -/
def DB_REFERENCE_VOLTAGE_0DBM : ℝ := 0.274

/-- Constant `DB_REFERENCE_IMPEDANCE` (config_settings.h line 32). -/
def DB_REFERENCE_IMPEDANCE : ℝ := 75

/-- Voltage → dBm conversion inside `adc_sampling_process_fft`
(adc_sampling.c lines 315-322): `20*log10(v / 0.274)` above the `1e-10`
floor, sentinel `-200` below it. -/
noncomputable def db_magnitude_unified (v : ℝ) : ℝ :=
  if v > 1e-10 then 20 * Real.logb 10 (v / DB_REFERENCE_VOLTAGE_0DBM) else -200

/-- Voltage → dBm conversion inside `fft_realtime_analysis` (lcd_2in8.c
lines 441-447): `20*log10(v / 0.274)` above the `1e-9` floor, sentinel
`-120` below it; `v` is the impedance-corrected voltage. -/
noncomputable def db_value_realtime (v : ℝ) : ℝ :=
  if v > 1e-9 then 20 * Real.logb 10 (v / DB_REFERENCE_VOLTAGE_0DBM) else -120

/-- Display-range clamp of `fft_streaming_display_update_spectrum`
(fft_streaming_display.c): `if (db < -100) db = -100; if (db > 20) db = 20;`
in source order. -/
def clamp_stream_db {α : Type} [LinearOrderedField α] (v : α) : α :=
  let v1 := if v < -100 then -100 else v
  if v1 > 20 then 20 else v1

/-- Display-range clamp of `fft_realtime_analysis` (lcd_2in8.c lines
460-461): `if (db > 20) db = 20; if (db < -100) db = -100;` in source
order. -/
def clamp_realtime_db {α : Type} [LinearOrderedField α] (v : α) : α :=
  let v1 := if v > 20 then 20 else v
  if v1 < -100 then -100 else v1

/-- Constant `AMPLITUDE_RANGE_MIN_DB` (config_settings.h line 89). -/
def AMPLITUDE_RANGE_MIN_DB : ℝ := -100

/-- Constant `AMPLITUDE_RANGE_MAX_DB` (config_settings.h line 90). -/
def AMPLITUDE_RANGE_MAX_DB : ℝ := 20

/-- Buffer-ownership invariant: the `current_buffer` pointer agrees with the
`buffer_selector` flag, and the ready buffer (when non-NULL) is the other
physical buffer. -/
def BufInv (s : UnifiedFFTAnalyzer) : Prop :=
  s.currentBuffer = s.bufferSelector ∧
    ∀ b, s.readyBuffer = some b → b ≠ s.currentBuffer

lemma bufInv_swap {s : UnifiedFFTAnalyzer} (h : BufInv s) :
    BufInv (_adc_swap_buffers s) := by
  obtain ⟨h1, _⟩ := h
  cases hsel : s.bufferSelector <;>
    simp_all [BufInv, _adc_swap_buffers, pingId, pongId]

lemma bufInv_writeCurrent {s : UnifiedFFTAnalyzer} (d : List ℕ) (h : BufInv s) :
    BufInv (writeCurrent s d) := by
  obtain ⟨h1, h2⟩ := h
  unfold writeCurrent
  split <;> exact ⟨h1, h2⟩

lemma bufInv_manual {s : UnifiedFFTAnalyzer} (d : List ℕ) (t : ℚ) (h : BufInv s) :
    BufInv (_adc_manual_sample_buffer s d t) := by
  have hw := bufInv_writeCurrent d h
  obtain ⟨h1, h2⟩ := hw
  simp only [_adc_manual_sample_buffer]
  split_ifs <;>
    exact bufInv_swap ⟨h1, h2⟩

lemma bufInv_dma_handler {s : UnifiedFFTAnalyzer} (h : BufInv s) :
    BufInv (_adc_dma_interrupt_handler s) := by
  obtain ⟨h1, h2⟩ := h
  simp only [_adc_dma_interrupt_handler, _adc_dma_handler_armed]
  have hb : ∀ s' : UnifiedFFTAnalyzer, BufInv s' →
      BufInv { _adc_swap_buffers s' with
        dmaTarget := some (_adc_swap_buffers s').currentBuffer, dataReady := true } := by
    intro s' hs'
    obtain ⟨g1, g2⟩ := bufInv_swap hs'
    exact ⟨g1, g2⟩
  split_ifs <;> exact hb _ ⟨h1, h2⟩

lemma bufInv_step (s : UnifiedFFTAnalyzer) (e : AdcEvent) (h : BufInv s) :
    BufInv (adcStep s e) := by
  obtain ⟨h1, h2⟩ := h
  cases e with
  | start =>
      simp only [adcStep, adc_sampling_start, adc_sampling_reset_counters, _adc_dma_start]
      split_ifs <;> exact ⟨h1, h2⟩
  | stop t =>
      simp only [adcStep, adc_sampling_stop, _adc_dma_stop]
      split_ifs <;> exact ⟨h1, h2⟩
  | isReady d t =>
      simp only [adcStep, adc_sampling_is_ready]
      split_ifs
      · exact bufInv_manual d t ⟨h1, h2⟩
      · exact ⟨h1, h2⟩
  | dmaComplete d =>
      simp only [adcStep]
      split_ifs
      · exact bufInv_dma_handler (bufInv_writeCurrent d ⟨h1, h2⟩)
      · exact ⟨h1, h2⟩
  | processFft =>
      simp only [adcStep, adc_sampling_process_fft]
      split_ifs <;> exact ⟨h1, h2⟩
  | release =>
      simp only [adcStep, adc_sampling_complete_processing]
      split_ifs
      · exact ⟨h1, fun b hb => by simp at hb⟩
      · exact ⟨h1, h2⟩
  | resetCounters =>
      exact ⟨h1, h2⟩

lemma bufInv_reachable {s : UnifiedFFTAnalyzer} (h : Reachable s) : BufInv s := by
  induction h with
  | init mode => exact ⟨rfl, by simp [adc_sampling_init]⟩
  | step e _ ih => exact bufInv_step _ e ih

lemma status_not_error_step (s : UnifiedFFTAnalyzer) (e : AdcEvent)
    (h : s.status ≠ .error) : (adcStep s e).status ≠ .error := by
  cases e with
  | start =>
      simp only [adcStep, adc_sampling_start, adc_sampling_reset_counters, _adc_dma_start]
      split_ifs <;> simp_all
  | stop t =>
      simp only [adcStep, adc_sampling_stop, _adc_dma_stop]
      split_ifs <;> simp_all
  | isReady d t =>
      simp only [adcStep, adc_sampling_is_ready, _adc_manual_sample_buffer,
        _adc_swap_buffers, writeCurrent]
      split_ifs <;> simp_all
  | dmaComplete d =>
      simp only [adcStep, _adc_dma_interrupt_handler, _adc_dma_handler_armed,
        _adc_swap_buffers, writeCurrent]
      split_ifs <;> simp_all
  | processFft =>
      simp only [adcStep, adc_sampling_process_fft]
      split_ifs <;> simp_all
  | release =>
      simp only [adcStep, adc_sampling_complete_processing]
      split_ifs <;> simp_all
  | resetCounters =>
      exact h

lemma status_not_error_reachable {s : UnifiedFFTAnalyzer} (h : Reachable s) :
    s.status ≠ .error := by
  induction h with
  | init mode => simp [adc_sampling_init]
  | step e _ ih => exact status_not_error_step _ e ih

/-- C2: in every reachable state, exactly one of the two physical buffers is
the current write target, at most one buffer is ready, and the ready buffer
(when non-null) is never the current write target. -/
theorem buffer_ownership_invariant (s : UnifiedFFTAnalyzer) (h : Reachable s) :
    Xor' (s.currentBuffer = pingId) (s.currentBuffer = pongId) ∧
    (∀ b b', s.readyBuffer = some b → s.readyBuffer = some b' → b = b') ∧
    (∀ b, s.readyBuffer = some b → b ≠ s.currentBuffer) := by
  obtain ⟨_, h2⟩ := bufInv_reachable h
  refine ⟨?_, ?_, h2⟩
  · cases hc : s.currentBuffer
    · exact Or.inl ⟨rfl, by simp [pingId, pongId]⟩
    · exact Or.inr ⟨rfl, by simp [pingId, pongId]⟩
  · intro b b' hb hb'
    rw [hb] at hb'
    exact Option.some_inj.mp hb'

/-- Witness for C2 at the freshly initialized DMA-mode state. -/
theorem buffer_ownership_invariant_witness :
    Xor' ((adc_sampling_init .dma).currentBuffer = pingId)
      ((adc_sampling_init .dma).currentBuffer = pongId) ∧
    (∀ b b', (adc_sampling_init .dma).readyBuffer = some b →
      (adc_sampling_init .dma).readyBuffer = some b' → b = b') ∧
    (∀ b, (adc_sampling_init .dma).readyBuffer = some b →
      b ≠ (adc_sampling_init .dma).currentBuffer) :=
  buffer_ownership_invariant _ (Reachable.init .dma)

/-- C3 (refutation of the claimed Error transition): no reachable state of
the acquisition core ever has status `ADC_STATUS_ERROR` — the code contains
no fault-detection path, so a transfer fault can never set the Error status
the claim describes. -/
theorem adc_status_error_unreachable (s : UnifiedFFTAnalyzer) (h : Reachable s) :
    s.status ≠ AdcSamplingStatus.error :=
  status_not_error_reachable h

/-- Witness for C3: the state reached by init, start, and a DMA completion
is still not in the Error status. -/
theorem adc_status_error_unreachable_witness :
    (adcStep (adcStep (adc_sampling_init .dma) .start)
        (.dmaComplete (List.replicate ADC_SAMPLING_FFT_SIZE 0))).status ≠
      AdcSamplingStatus.error :=
  adc_status_error_unreachable _
    (Reachable.step _ (Reachable.step _ (Reachable.init .dma)))

/-- C8: two successive buffer swaps return the current write target (and the
selector) to the original physical buffer, from any reachable state. -/
theorem swap_involution (s : UnifiedFFTAnalyzer) (h : Reachable s) :
    (_adc_swap_buffers (_adc_swap_buffers s)).currentBuffer = s.currentBuffer ∧
    (_adc_swap_buffers (_adc_swap_buffers s)).bufferSelector = s.bufferSelector := by
  obtain ⟨h1, _⟩ := bufInv_reachable h
  cases hsel : s.bufferSelector <;>
    simp_all [_adc_swap_buffers, pingId, pongId]

/-- DMA-mode state after `adc_sampling_init(ADC_MODE_DMA)` and
`adc_sampling_start()`. -/
def traceStart : UnifiedFFTAnalyzer := adcStep (adc_sampling_init .dma) .start

/-- State after the first DMA buffer completion: one frame acquired, its
buffer ready and still unread. -/
def traceOneFrame : UnifiedFFTAnalyzer :=
  adcStep traceStart (.dmaComplete (List.replicate ADC_SAMPLING_FFT_SIZE 1))

lemma traceOneFrame_reachable : Reachable traceOneFrame :=
  Reachable.step _ (Reachable.step _ (Reachable.init .dma))

/-- C1: a DMA buffer completion while an unread ready buffer exists
increments the overrun counter by exactly 1; the next
`adc_sampling_get_buffer` returns the newly completed physical buffer (the
one that was the write target, now holding the new frame `d`), not the
discarded ready buffer `b`; and the handler equals its armed prefix — which
already points the DMA channel at the new write target — followed by the
single final `data_ready = true` store. -/
theorem dma_overrun_exact_and_newest_buffer (s : UnifiedFFTAnalyzer) (d : List ℕ)
    (b : Bool) (hr : Reachable s) (hmode : s.mode = .dma)
    (hready : s.dataReady = true) (hbuf : s.readyBuffer = some b) :
    (adcStep s (.dmaComplete d)).bufferOverruns = s.bufferOverruns + 1 ∧
    adc_sampling_get_buffer (adcStep s (.dmaComplete d)) = some s.currentBuffer ∧
    b ≠ s.currentBuffer ∧
    bufferData (adcStep s (.dmaComplete d)) s.currentBuffer = d ∧
    adcStep s (.dmaComplete d) =
      { _adc_dma_handler_armed (writeCurrent s d) with dataReady := true } ∧
    (_adc_dma_handler_armed (writeCurrent s d)).dmaTarget =
      some ((_adc_dma_handler_armed (writeCurrent s d)).currentBuffer) := by
  obtain ⟨h1, h2⟩ := bufInv_reachable hr
  have hb := h2 b hbuf
  refine ⟨?_, ?_, hb, ?_, ?_, ?_⟩ <;>
    cases hc : s.currentBuffer <;>
      simp_all [adcStep, _adc_dma_interrupt_handler, _adc_dma_handler_armed,
        _adc_swap_buffers, writeCurrent, bufferData, adc_sampling_get_buffer,
        pingId, pongId]

/-- Witness for C1: a second DMA completion arriving while the first frame
is still unread. -/
theorem dma_overrun_exact_and_newest_buffer_witness :
    (adcStep traceOneFrame
        (.dmaComplete (List.replicate ADC_SAMPLING_FFT_SIZE 2))).bufferOverruns =
      traceOneFrame.bufferOverruns + 1 ∧
    adc_sampling_get_buffer (adcStep traceOneFrame
        (.dmaComplete (List.replicate ADC_SAMPLING_FFT_SIZE 2))) =
      some traceOneFrame.currentBuffer ∧
    pingId ≠ traceOneFrame.currentBuffer ∧
    bufferData (adcStep traceOneFrame
        (.dmaComplete (List.replicate ADC_SAMPLING_FFT_SIZE 2)))
      traceOneFrame.currentBuffer = List.replicate ADC_SAMPLING_FFT_SIZE 2 ∧
    adcStep traceOneFrame (.dmaComplete (List.replicate ADC_SAMPLING_FFT_SIZE 2)) =
      { _adc_dma_handler_armed
          (writeCurrent traceOneFrame (List.replicate ADC_SAMPLING_FFT_SIZE 2)) with
        dataReady := true } ∧
    (_adc_dma_handler_armed
        (writeCurrent traceOneFrame (List.replicate ADC_SAMPLING_FFT_SIZE 2))).dmaTarget =
      some ((_adc_dma_handler_armed
        (writeCurrent traceOneFrame (List.replicate ADC_SAMPLING_FFT_SIZE 2))).currentBuffer) :=
  dma_overrun_exact_and_newest_buffer traceOneFrame _ pingId
    traceOneFrame_reachable rfl rfl rfl

/-- C7: function `adc_sampling_is_ready` is mode-dependent.  In DMA mode it only
reads the asynchronously-set flag and leaves the state untouched.  In manual
mode, when sampling is active and no data is pending, the call itself runs
`_adc_manual_sample_buffer`: it fills the whole write-target buffer with the
frame `d`, advances `sample_count` by a full frame, swaps buffers, marks the
data ready, and returns `true`. -/
theorem is_ready_mode_dependent (s : UnifiedFFTAnalyzer) (d : List ℕ) (t : ℚ) :
    (s.mode = .dma → adc_sampling_is_ready s d t = (s, s.dataReady)) ∧
    (s.mode = .manual → s.samplingActive = true → s.dataReady = false →
      (adc_sampling_is_ready s d t).1 = _adc_manual_sample_buffer s d t ∧
      (adc_sampling_is_ready s d t).2 = true ∧
      (adc_sampling_is_ready s d t).1.sampleCount = s.sampleCount + ADC_SAMPLING_FFT_SIZE ∧
      bufferData (adc_sampling_is_ready s d t).1 s.currentBuffer = d ∧
      (adc_sampling_is_ready s d t).1.readyBuffer = some s.currentBuffer ∧
      (adc_sampling_is_ready s d t).1.dataReady = true) := by
  constructor
  · intro hmode
    simp [adc_sampling_is_ready, hmode]
  · intro hmode hact hnr
    refine ⟨?_, ?_, ?_, ?_, ?_, ?_⟩ <;>
      cases hc : s.currentBuffer <;>
        simp_all [adc_sampling_is_ready, _adc_manual_sample_buffer, _adc_swap_buffers,
          writeCurrent, bufferData, pingId, pongId] <;>
        split_ifs <;> simp

/-- Witness for C7: DMA-mode readiness polling is pure, and a manual-mode
poll from the started state performs the buffer fill and returns true. -/
theorem is_ready_mode_dependent_witness :
    adc_sampling_is_ready (adc_sampling_init .dma) [] 0 =
      (adc_sampling_init .dma, false) ∧
    (adc_sampling_is_ready (adcStep (adc_sampling_init .manual) .start)
        (List.replicate ADC_SAMPLING_FFT_SIZE 3) 8000).2 = true :=
  ⟨(is_ready_mode_dependent _ _ _).1 rfl,
   ((is_ready_mode_dependent (adcStep (adc_sampling_init .manual) .start)
      (List.replicate ADC_SAMPLING_FFT_SIZE 3) 8000).2 rfl rfl rfl).2.1⟩

/-- C10: function `adc_sampling_complete_processing` with no ready buffer leaves the
whole analyzer state unchanged; with a ready buffer it clears exactly the
data-ready flag, the FFT-ready flag and the ready-buffer reference, leaving
every other field unchanged. -/
theorem release_frame_conditions (s : UnifiedFFTAnalyzer) :
    (s.dataReady = false → adc_sampling_complete_processing s = s) ∧
    (s.dataReady = true →
      (adc_sampling_complete_processing s).dataReady = false ∧
      (adc_sampling_complete_processing s).fftReady = false ∧
      (adc_sampling_complete_processing s).readyBuffer = none ∧
      (adc_sampling_complete_processing s).mode = s.mode ∧
      (adc_sampling_complete_processing s).status = s.status ∧
      (adc_sampling_complete_processing s).currentBuffer = s.currentBuffer ∧
      (adc_sampling_complete_processing s).bufferSelector = s.bufferSelector ∧
      (adc_sampling_complete_processing s).bufferPing = s.bufferPing ∧
      (adc_sampling_complete_processing s).bufferPong = s.bufferPong ∧
      (adc_sampling_complete_processing s).samplingActive = s.samplingActive ∧
      (adc_sampling_complete_processing s).sampleCount = s.sampleCount ∧
      (adc_sampling_complete_processing s).bufferOverruns = s.bufferOverruns ∧
      (adc_sampling_complete_processing s).actualSampleRate = s.actualSampleRate ∧
      (adc_sampling_complete_processing s).dmaTarget = s.dmaTarget) := by
  constructor
  · intro h
    simp [adc_sampling_complete_processing, h]
  · intro h
    simp [adc_sampling_complete_processing, h]

/-- Witness for C10: release is the identity on the fresh idle state, and on
the one-frame state it clears the handoff fields while preserving the
counters and the write target. -/
theorem release_frame_conditions_witness :
    adc_sampling_complete_processing (adc_sampling_init .dma) = adc_sampling_init .dma ∧
    (adc_sampling_complete_processing traceOneFrame).dataReady = false ∧
    (adc_sampling_complete_processing traceOneFrame).readyBuffer = none ∧
    (adc_sampling_complete_processing traceOneFrame).sampleCount =
      traceOneFrame.sampleCount ∧
    (adc_sampling_complete_processing traceOneFrame).currentBuffer =
      traceOneFrame.currentBuffer :=
  ⟨(release_frame_conditions (adc_sampling_init .dma)).1 rfl,
   ((release_frame_conditions traceOneFrame).2 rfl).1,
   ((release_frame_conditions traceOneFrame).2 rfl).2.2.1,
   ((release_frame_conditions traceOneFrame).2 rfl).2.2.2.2.2.2.2.2.2.2.1,
   ((release_frame_conditions traceOneFrame).2 rfl).2.2.2.2.2.1⟩

/-- Witness for C8 at the freshly initialized manual-mode state. -/
theorem swap_involution_witness :
    (_adc_swap_buffers (_adc_swap_buffers (adc_sampling_init .manual))).currentBuffer =
      (adc_sampling_init .manual).currentBuffer ∧
    (_adc_swap_buffers (_adc_swap_buffers (adc_sampling_init .manual))).bufferSelector =
      (adc_sampling_init .manual).bufferSelector :=
  swap_involution _ (Reachable.init .manual)

/-- C9: for each of the seven selectable window shapes, the product of its
coherent-gain constant and its amplitude-correction constant is (exactly,
hence approximately) 1. -/
theorem window_gain_correction_product (w : WindowShape) :
    windowCoherentGain w * windowAmplitudeCorrection w = 1 := by
  cases w <;> norm_num [windowCoherentGain, windowAmplitudeCorrection]

/-- Counterexample for C4: at bin 1 with magnitude 1, the unified
`adc_sampling_process_fft` normalization (divide by N) differs from the
claimed normalization (divide by N/2). -/
theorem normalize_unified_deviates_from_claim :
    normalize_unified 1 1 ≠ claimedNormalize 1 1 := by
  norm_num [normalize_unified, claimedNormalize, ADC_SAMPLING_FFT_SIZE]

/-- C4 (amended): the `fft_realtime_analysis` variant normalizes the DC bin
by N and every other consumed bin by N/2, exactly as the claim states; the
unified `adc_sampling_process_fft` variant instead divides every bin —
including bins 1..N/2-1 — by N, disagreeing with the claimed normalization
at every nonzero magnitude outside the DC bin. -/
theorem normalization_variants_characterized (i : ℕ) (mag : ℚ) :
    normalize_realtime i mag = claimedNormalize i mag ∧
    normalize_unified i mag = mag / 1024 ∧
    (i ≠ 0 → mag ≠ 0 → normalize_unified i mag ≠ claimedNormalize i mag) := by
  refine ⟨rfl, rfl, ?_⟩
  intro hi hm
  simp only [normalize_unified, claimedNormalize, ADC_SAMPLING_FFT_SIZE, if_neg hi]
  intro h
  apply hm
  field_simp at h

/-- Witness for C4's amended theorem at bin 1, magnitude 1. -/
theorem normalization_variants_characterized_witness :
    normalize_realtime 1 1 = claimedNormalize 1 1 ∧
    normalize_unified 1 1 = 1 / 1024 ∧
    normalize_unified 1 1 ≠ claimedNormalize 1 1 :=
  ⟨(normalization_variants_characterized 1 1).1,
   (normalization_variants_characterized 1 1).2.1,
   (normalization_variants_characterized 1 1).2.2 (by norm_num) (by norm_num)⟩

/-- C5: both voltage → power-level conversions are total and piecewise: above
the floor (`1e-9` V in `fft_realtime_analysis`, `1e-10` V in
`adc_sampling_process_fft`) the result is `20·log10(v / V_0dBm)`; at or below
the floor it is the fixed very-negative sentinel (`-120` resp. `-200`) and
the logarithm is never evaluated; and the configured `V_0dBm = 0.274` is the
closed-form value `sqrt(1 mW × Z_ref)` for the configured 75 Ω reference
impedance, to within `1e-3`. -/
theorem db_conversion_total_piecewise :
    (∀ v : ℝ, v > 1e-9 → db_value_realtime v =
      20 * Real.logb 10 (v / DB_REFERENCE_VOLTAGE_0DBM)) ∧
    (∀ v : ℝ, v ≤ 1e-9 → db_value_realtime v = -120) ∧
    (∀ v : ℝ, v > 1e-10 → db_magnitude_unified v =
      20 * Real.logb 10 (v / DB_REFERENCE_VOLTAGE_0DBM)) ∧
    (∀ v : ℝ, v ≤ 1e-10 → db_magnitude_unified v = -200) ∧
    |DB_REFERENCE_VOLTAGE_0DBM - Real.sqrt (0.001 * DB_REFERENCE_IMPEDANCE)| < 0.001 := by
  refine ⟨?_, ?_, ?_, ?_, ?_⟩
  · intro v hv
    simp [db_value_realtime, hv]
  · intro v hv
    simp [db_value_realtime, not_lt.mpr hv]
  · intro v hv
    simp [db_magnitude_unified, hv]
  · intro v hv
    simp [db_magnitude_unified, not_lt.mpr hv]
  · have he : (0.001 * DB_REFERENCE_IMPEDANCE : ℝ) = 0.075 := by
      norm_num [DB_REFERENCE_IMPEDANCE]
    rw [he]
    have h1 : Real.sqrt 0.075 < 0.274 := by
      rw [Real.sqrt_lt' (by norm_num)]
      norm_num
    have h2 : (0.273 : ℝ) < Real.sqrt 0.075 := by
      rw [Real.lt_sqrt (by norm_num)]
      norm_num
    rw [DB_REFERENCE_VOLTAGE_0DBM, abs_of_pos (by linarith)]
    linarith

/-- Witness for C5: the conversion evaluated at the 0 dBm reference voltage
and at zero volts. -/
theorem db_conversion_total_piecewise_witness :
    db_value_realtime 0.274 =
      20 * Real.logb 10 (0.274 / DB_REFERENCE_VOLTAGE_0DBM) ∧
    db_value_realtime 0 = -120 ∧
    db_magnitude_unified 0 = -200 :=
  ⟨db_conversion_total_piecewise.1 0.274 (by norm_num),
   db_conversion_total_piecewise.2.1 0 (by norm_num),
   db_conversion_total_piecewise.2.2.2.1 0 (by norm_num)⟩

/-- C6: the display-side clamp keeps every published magnitude inside
`[AMPLITUDE_RANGE_MIN_DB, AMPLITUDE_RANGE_MAX_DB] = [-100, 20]`; values
outside the range saturate at the nearer bound (never wrap); both clamp
variants agree; and composed with the dB conversion the published value is a
(finite) real in range for every input voltage. -/
theorem published_magnitude_clamped :
    (∀ v : ℝ, AMPLITUDE_RANGE_MIN_DB ≤ clamp_stream_db v ∧
      clamp_stream_db v ≤ AMPLITUDE_RANGE_MAX_DB) ∧
    (∀ v : ℝ, v < -100 → clamp_stream_db v = -100) ∧
    (∀ v : ℝ, v > 20 → clamp_stream_db v = 20) ∧
    (∀ v : ℝ, clamp_realtime_db v = clamp_stream_db v) ∧
    (∀ v : ℝ, AMPLITUDE_RANGE_MIN_DB ≤ clamp_stream_db (db_magnitude_unified v) ∧
      clamp_stream_db (db_magnitude_unified v) ≤ AMPLITUDE_RANGE_MAX_DB) := by
  have hbounds : ∀ v : ℝ, AMPLITUDE_RANGE_MIN_DB ≤ clamp_stream_db v ∧
      clamp_stream_db v ≤ AMPLITUDE_RANGE_MAX_DB := by
    intro v
    simp only [clamp_stream_db, AMPLITUDE_RANGE_MIN_DB, AMPLITUDE_RANGE_MAX_DB]
    split_ifs <;> constructor <;> linarith
  refine ⟨hbounds, ?_, ?_, ?_, fun v => hbounds _⟩
  · intro v hv
    simp only [clamp_stream_db]
    split_ifs <;> linarith
  · intro v hv
    simp only [clamp_stream_db]
    split_ifs <;> linarith
  · intro v
    simp only [clamp_stream_db, clamp_realtime_db]
    split_ifs <;> linarith

/-- Witness for C6: saturation at concrete out-of-range inputs. -/
theorem published_magnitude_clamped_witness :
    clamp_stream_db (-150 : ℝ) = -100 ∧ clamp_stream_db (25 : ℝ) = 20 ∧
    AMPLITUDE_RANGE_MIN_DB ≤ clamp_stream_db (db_magnitude_unified 0) ∧
    clamp_stream_db (db_magnitude_unified 0) ≤ AMPLITUDE_RANGE_MAX_DB :=
  ⟨published_magnitude_clamped.2.1 (-150) (by norm_num),
   published_magnitude_clamped.2.2.1 25 (by norm_num),
   (published_magnitude_clamped.2.2.2.2 0).1,
   (published_magnitude_clamped.2.2.2.2 0).2⟩
